import Mathlib

/-!
# Verification of the notebook backend (agno-notebooklm-example)

Shallow embedding of the notebook CRUD handlers and of the run-context +
session-linking workflow (`notebook_run`) from `backend/api/notebooks.py`,
together with the relational rows declared in `backend/db/tables/`.

External collaborators (the agno orchestration framework, uuid generation,
the SQL engine's clock) are modelled as explicit parameters: `uuid4()` output
becomes a `fresh : String` argument, `now()` a `now : Nat` argument, and the
result of the external team lookup a lookup over the injected `AgentOS`
structure.  Timestamps are modelled as natural numbers.
-/

namespace NotebookLM

/-- A row of the `notebooks` table (`backend/db/tables/notebook.py`):
`id` (bigint pk), `title` (non-null string), optional `description` and
`instructions` texts, `created_at` (server default now()), nullable
`updated_at` (refreshed by `onupdate=now()`). -/
structure Notebook where
  id : Nat
  title : String
  description : Option String
  instructions : Option String
  createdAt : Nat
  updatedAt : Option Nat
deriving Repr, DecidableEq

/-- A row of the `notebook_sessions` table
(`backend/db/tables/notebook_session.py`): `id` (bigint pk),
`notebook_id` (FK to notebooks, cascade), `session_id` (unique string),
`created_at`. -/
structure NotebookSessionRow where
  id : Nat
  notebookId : Nat
  sessionId : String
  createdAt : Nat
deriving Repr, DecidableEq

/-- The relational store visible to the handlers: the two tables, plus the
autoincrement counter for `notebook_sessions.id`. -/
structure DbState where
  notebooks : List Notebook
  links : List NotebookSessionRow
  nextLinkId : Nat
deriving Repr, DecidableEq

/-- Python truthiness of an `Optional[str]`: `None` and the empty string are
falsy, any other string is truthy.  Used by `if notebook.description:` and
`if notebook.instructions:` in `notebook_run`. -/
def optStrTruthy : Option String → Bool
  | none => false
  | some s => !(s == "")

/-- The list `context_parts` built by `notebook_run` (notebooks.py lines
166-170): the title line, then a description line when the description is
truthy, then an instructions line when the instructions are truthy. -/
def contextParts (nb : Notebook) : List String :=
  ["[Notebook: " ++ nb.title ++ "]"]
    ++ (if optStrTruthy nb.description then
          ["[Description: " ++ nb.description.getD "" ++ "]"] else [])
    ++ (if optStrTruthy nb.instructions then
          ["[Instructions: " ++ nb.instructions.getD "" ++ "]"] else [])

/-- `context_prefix = "\n".join(context_parts) + "\n\n"` (notebooks.py line
171). -/
def contextHeader (nb : Notebook) : String :=
  String.intercalate "\n" (contextParts nb) ++ "\n\n"

/-- `full_message = context_prefix + message` (notebooks.py line 172). -/
def fullMessage (nb : Notebook) (message : String) : String :=
  contextHeader nb ++ message

/-- `is_new_session = not session_id or session_id == ""` (line 185):
true when the form field is absent or the empty string. -/
def isNewSession : Option String → Bool
  | none => true
  | some s => s == ""

/-- Session-identity resolution (notebooks.py lines 185-187): a fresh
`uuid4()` token when no (or an empty) session id was supplied, otherwise
the supplied token exactly as given. -/
def resolveSessionId (supplied : Option String) (fresh : String) : String :=
  if isNewSession supplied then fresh else supplied.getD fresh

/-- `db.query(NotebooksTable).filter(NotebooksTable.id == notebook_id).first()`. -/
def findNotebook (st : DbState) (notebookId : Nat) : Option Notebook :=
  st.notebooks.find? (fun nb => nb.id == notebookId)

/-- `db.query(NotebookSessionsTable).filter(... .session_id == session_id).first()`. -/
def findLink (st : DbState) (sessionId : String) : Option NotebookSessionRow :=
  st.links.find? (fun l => l.sessionId == sessionId)

/-- The injected orchestration handle (`_agent_os`): we model only what
`notebook_run` reads from it, namely the team registry that the external
`get_team_by_id` searches. -/
structure AgentOS where
  teams : List String
deriving Repr, DecidableEq

/-- The external `get_team_by_id(team_id=..., teams=...)` lookup, modelled as
a search of the registry by id. -/
def getTeamById (teamId : String) (teams : List String) : Option String :=
  teams.find? (fun t => t == teamId)

/-- The errors `notebook_run` raises: `HTTPException(500, "AgentOS not
initialized")`, `HTTPException(404, "Notebook not found")`,
`HTTPException(404, "Team not found")`. -/
inductive RunError where
  | agentOSNotInitialized
  | notebookNotFound
  | teamNotFound
deriving Repr, DecidableEq

/-- What `notebook_run` hands to the external team-execution entry point
(either `team_response_streamer` or `team.arun`): the team, the composed
message, the resolved session id, the forwarded user id, and the stream
flag. -/
structure Dispatch where
  team : String
  message : String
  sessionId : String
  userId : Option String
  stream : Bool
deriving Repr, DecidableEq

/-- The "Link session to notebook" block (notebooks.py lines 189-201):
look up a link row for the resolved session id; when none exists, insert
one associating the session id with the requested notebook id, otherwise
leave the table untouched. -/
def linkSession (st : DbState) (notebookId : Nat) (sid : String)
    (now : Nat) : DbState :=
  match findLink st sid with
  | some _ => st
  | none =>
    { st with
        links := st.links ++
          [{ id := st.nextLinkId, notebookId := notebookId,
             sessionId := sid, createdAt := now }],
        nextLinkId := st.nextLinkId + 1 }

/-- The run-context + session-linking workflow `notebook_run`
(notebooks.py lines 147-220).  Returns the store after the request together
with either the dispatch to the external team or the error raised; every
error is raised before any mutation, so the store is returned unchanged on
every error path. -/
def notebookRun (agentOS : Option AgentOS) (st : DbState) (notebookId : Nat)
    (message : String) (stream : Bool) (sessionId : Option String)
    (userId : Option String) (fresh : String) (now : Nat) :
    DbState × Except RunError Dispatch :=
  match agentOS with
  | none => (st, .error .agentOSNotInitialized)
  | some os =>
    match findNotebook st notebookId with
    | none => (st, .error .notebookNotFound)
    | some nb =>
      let fullMsg := fullMessage nb message
      match getTeamById "notebooklm" os.teams with
      | none => (st, .error .teamNotFound)
      | some team =>
        let sid := resolveSessionId sessionId fresh
        let st' := linkSession st notebookId sid now
        (st', .ok { team := team, message := fullMsg, sessionId := sid,
                    userId := userId, stream := stream })

/-- The `NotebookUpdate` body with pydantic presence information:
the outer `Option` is "explicitly present in the request body"
(`model_dump(exclude_unset=True)`), the inner `Option` is the JSON value
(possibly null). -/
structure NotebookUpdatePatch where
  title : Option (Option String) := none
  description : Option (Option String) := none
  instructions : Option (Option String) := none
deriving Repr, DecidableEq

/-- The `setattr` loop of `update_notebook` (notebooks.py lines 123-125):
each field explicitly present in the body overwrites the attribute, absent
fields are untouched.  An explicitly-null `title` is handled separately in
`updateNotebook` (the `notebooks.title` column is non-nullable, so flushing
it raises a storage error before any state changes). -/
def applyPatch (nb : Notebook) (p : NotebookUpdatePatch) : Notebook :=
  { nb with
      title := match p.title with
        | some (some t) => t
        | _ => nb.title
      description := p.description.getD nb.description
      instructions := p.instructions.getD nb.instructions }

/-- Errors of `update_notebook`: `HTTPException(404, "Notebook not found")`,
and the storage-layer integrity error raised at commit when a non-nullable
column (the title) is flushed as NULL. -/
inductive UpdateError where
  | notFound
  | integrityError
deriving Repr, DecidableEq

/-- `PUT /notebooks/{id}` (notebooks.py lines 116-129): 404 when the id is
absent; a body with an explicit null title makes the commit violate the
non-null constraint on `notebooks.title` (rolled back, no state change);
otherwise the `setattr` loop applies the explicitly-present fields and the
commit flushes the row, the column-level `onupdate=now()` refreshing
`updated_at` exactly when the flush issues an UPDATE (i.e. when some
attribute actually changed value). -/
def updateNotebook (st : DbState) (notebookId : Nat)
    (p : NotebookUpdatePatch) (now : Nat) :
    Except UpdateError (DbState × Notebook) :=
  match findNotebook st notebookId with
  | none => .error .notFound
  | some nb =>
    if p.title = some none then .error .integrityError
    else
      let nb' := applyPatch nb p
      let nb'' := if nb' = nb then nb else { nb' with updatedAt := some now }
      .ok ({ st with
              notebooks := st.notebooks.map
                (fun x => if x.id == notebookId then nb'' else x) },
           nb'')

/-- The SQL sort key of `list_notebooks`: `ORDER BY updated_at DESC,
created_at DESC` on PostgreSQL, where DESC places NULLs first; so the key is
`updated_at` with NULL as top, then `created_at`, compared descending
lexicographically. -/
def sortKey (nb : Notebook) : Lex (WithTop Nat × Nat) :=
  toLex (match nb.updatedAt with
         | none => (⊤ : WithTop Nat)
         | some u => (u : WithTop Nat), nb.createdAt)

/-- `a` may precede `b` in the output of `list_notebooks`: its key is at
least as large (descending order). -/
def notebookLe (a b : Notebook) : Bool :=
  decide (sortKey b ≤ sortKey a)

/-- `GET /notebooks` (notebooks.py lines 82-90): every row, ordered by
`updated_at` desc then `created_at` desc. -/
def listNotebooks (st : DbState) : List Notebook :=
  st.notebooks.mergeSort notebookLe

/-- Each `session_id` appears in at most one link row. -/
def sessionUnique (links : List NotebookSessionRow) : Prop :=
  links.Pairwise (fun a b => a.sessionId ≠ b.sessionId)

/-- The composed message as the claim states it: a context block with one
line naming the notebook title, one additional line per populated optional
field in order description then instructions, joined by single newlines,
then a blank line, then the user's message verbatim.  ("Populated" means
present and non-empty.)  Written from the claim's words, to be compared
with `fullMessage`, which is written from the source. -/
def claimComposedMessage (nb : Notebook) (message : String) : String :=
  let lines :=
    ("[Notebook: " ++ nb.title ++ "]") ::
      ((match nb.description with
        | some d => if d ≠ "" then [("[Description: " ++ d ++ "]")] else []
        | none => []) ++
       (match nb.instructions with
        | some i => if i ≠ "" then [("[Instructions: " ++ i ++ "]")] else []
        | none => []))
  String.intercalate "\n" lines ++ "\n\n" ++ message

end NotebookLM
namespace NotebookLM

/-! ## General lemmas about the run workflow -/

/-- On the success path (orchestration handle injected, notebook found, team
found) `notebook_run` commits the lazy session link and dispatches the
composed message with the resolved session id. -/
theorem run_success (os : AgentOS) (st : DbState) (nid : Nat) (msg : String)
    (stream : Bool) (sid uid : Option String) (fresh : String) (now : Nat)
    (nb : Notebook) (team : String)
    (hnb : findNotebook st nid = some nb)
    (ht : getTeamById "notebooklm" os.teams = some team) :
    notebookRun (some os) st nid msg stream sid uid fresh now =
      (linkSession st nid (resolveSessionId sid fresh) now,
       .ok { team := team, message := fullMessage nb msg,
             sessionId := resolveSessionId sid fresh, userId := uid,
             stream := stream }) := by
  simp [notebookRun, hnb, ht]

/-- Inversion for a successful `update_notebook`: the body had no explicit
null title, the returned notebook is the patched row (with `updated_at`
refreshed when the row actually changed), and the store is the pointwise
replacement of that row. -/
theorem updateNotebook_ok_shape (st : DbState) (nid : Nat)
    (p : NotebookUpdatePatch) (now : Nat) (st' : DbState) (nb' nb : Notebook)
    (hnb : findNotebook st nid = some nb)
    (hok : updateNotebook st nid p now = .ok (st', nb')) :
    p.title ≠ some none ∧
    nb' = (if applyPatch nb p = nb then nb
           else { applyPatch nb p with updatedAt := some now }) ∧
    st'.notebooks = st.notebooks.map (fun x => if x.id == nid then nb' else x) ∧
    st'.links = st.links ∧ st'.nextLinkId = st.nextLinkId := by
  by_cases hp : p.title = some none
  · simp [updateNotebook, hnb, hp] at hok
  · simp [updateNotebook, hnb, hp] at hok
    obtain ⟨hst, hnb'⟩ := hok
    subst hst
    subst hnb'
    refine ⟨hp, rfl, by simp, rfl, rfl⟩

/-- Field-level description of the notebook returned by a successful
`update_notebook`. -/
theorem updateNotebook_fields (st : DbState) (nid : Nat)
    (p : NotebookUpdatePatch) (now : Nat) (st' : DbState) (nb' nb : Notebook)
    (hnb : findNotebook st nid = some nb)
    (hok : updateNotebook st nid p now = .ok (st', nb')) :
    nb'.title = (applyPatch nb p).title ∧
    nb'.description = p.description.getD nb.description ∧
    nb'.instructions = p.instructions.getD nb.instructions ∧
    nb'.id = nb.id ∧ nb'.createdAt = nb.createdAt ∧
    nb'.updatedAt = (if applyPatch nb p = nb then nb.updatedAt else some now) := by
  obtain ⟨hp, hdef, hmap, hlinks, _⟩ :=
    updateNotebook_ok_shape st nid p now st' nb' nb hnb hok
  by_cases hc : applyPatch nb p = nb
  · rw [hdef, if_pos hc, if_pos hc]
    exact ⟨(congrArg Notebook.title hc).symm,
           (congrArg Notebook.description hc).symm,
           (congrArg Notebook.instructions hc).symm, rfl, rfl, rfl⟩
  · rw [hdef, if_neg hc, if_neg hc]
    exact ⟨rfl, rfl, rfl, rfl, rfl, rfl⟩

/-! ## Claim theorems -/

/-- Claim C1: for every notebook and run request, the message dispatched to
the team is the context prefix — one line naming the title, one additional
line per populated optional field in order description then instructions,
joined by single newlines — followed by a blank line, followed by the user's
message verbatim. -/
theorem run_message_context_then_user (nb : Notebook) (message : String) :
    fullMessage nb message = claimComposedMessage nb message := by
  cases hd : nb.description <;> cases hi : nb.instructions <;>
    simp [fullMessage, contextHeader, contextParts, claimComposedMessage,
      optStrTruthy, hd, hi, String.intercalate]

/-- Claim C2: session linking is idempotent and keeps each session id in at
most one link row: when the resolved session id already has a link row no
row is inserted, when it has none exactly one row associating it with the
requested notebook is appended, and uniqueness of session ids across link
rows is preserved. -/
theorem run_link_idempotent_unique
    (os? : Option AgentOS) (st st' : DbState) (nid : Nat) (msg : String)
    (stream : Bool) (sid uid : Option String) (fresh : String) (now : Nat)
    (d : Dispatch)
    (hok : notebookRun os? st nid msg stream sid uid fresh now = (st', .ok d)) :
    ((findLink st d.sessionId).isSome = true → st'.links = st.links) ∧
    (findLink st d.sessionId = none →
      st'.links = st.links ++
        [{ id := st.nextLinkId, notebookId := nid,
           sessionId := d.sessionId, createdAt := now }]) ∧
    (sessionUnique st.links → sessionUnique st'.links) := by
  cases os? with
  | none => simp [notebookRun] at hok
  | some os =>
    cases hnb : findNotebook st nid with
    | none => simp [notebookRun, hnb] at hok
    | some nb =>
      cases ht : getTeamById "notebooklm" os.teams with
      | none => simp [notebookRun, hnb, ht] at hok
      | some team =>
        rw [run_success os st nid msg stream sid uid fresh now nb team hnb ht] at hok
        have hst : st' = linkSession st nid (resolveSessionId sid fresh) now :=
          (congrArg Prod.fst hok).symm
        have hd : d = { team := team, message := fullMessage nb msg,
                        sessionId := resolveSessionId sid fresh,
                        userId := uid, stream := stream } := by
          have h2 := congrArg Prod.snd hok
          simpa using h2.symm
        subst hst
        subst hd
        cases hfl : findLink st (resolveSessionId sid fresh) with
        | some row =>
          refine ⟨fun _ => ?_, fun hnone => ?_, fun hu => ?_⟩
          · simp [linkSession, hfl]
          · simp [hfl] at hnone
          · simpa [linkSession, hfl] using hu
        | none =>
          refine ⟨fun hsome => ?_, fun _ => ?_, fun hu => ?_⟩
          · simp [hfl] at hsome
          · simp [linkSession, hfl]
          · unfold sessionUnique at hu ⊢
            simp only [linkSession, hfl]
            rw [List.pairwise_append]
            refine ⟨hu, List.pairwise_singleton _ _, ?_⟩
            intro a ha b hb
            have hne := List.find?_eq_none.mp hfl a ha
            simp only [List.mem_singleton] at hb
            subst hb
            simpa using hne

/-- Witness for claim C2: on a store with one notebook and no links, a run
with no supplied session id succeeds and appends exactly one link row. -/
theorem run_link_idempotent_unique_witness :
    notebookRun (some ⟨["notebooklm"]⟩) ⟨[⟨1, "T", none, none, 0, none⟩], [], 0⟩
        1 "m" true none none "u" 5
      = (⟨[⟨1, "T", none, none, 0, none⟩], [⟨0, 1, "u", 5⟩], 1⟩,
         .ok ⟨"notebooklm", "[Notebook: T]\n\nm", "u", none, true⟩) ∧
    (⟨[⟨1, "T", none, none, 0, none⟩], [⟨0, 1, "u", 5⟩], 1⟩ : DbState).links
      = (⟨[⟨1, "T", none, none, 0, none⟩], [], 0⟩ : DbState).links ++
        [⟨0, 1, "u", 5⟩] :=
  ⟨rfl, (run_link_idempotent_unique (some ⟨["notebooklm"]⟩)
      ⟨[⟨1, "T", none, none, 0, none⟩], [], 0⟩
      ⟨[⟨1, "T", none, none, 0, none⟩], [⟨0, 1, "u", 5⟩], 1⟩
      1 "m" true none none "u" 5
      ⟨"notebooklm", "[Notebook: T]\n\nm", "u", none, true⟩ rfl).2.1 rfl⟩

end NotebookLM
namespace NotebookLM

/-- Claim C3: before dispatch the resolved session id is non-empty (the
fresh `uuid4()` token is never empty): an absent or empty `session_id` form
field resolves to the freshly minted token, any other supplied token is used
exactly as given, with no validation against the store. -/
theorem run_session_id_resolution
    (os? : Option AgentOS) (st : DbState) (nid : Nat) (msg : String)
    (stream : Bool) (sid uid : Option String) (fresh : String) (now : Nat)
    (d : Dispatch) (hfresh : fresh ≠ "")
    (hok : (notebookRun os? st nid msg stream sid uid fresh now).2 = .ok d) :
    d.sessionId = resolveSessionId sid fresh ∧
    d.sessionId ≠ "" ∧
    ((sid = none ∨ sid = some "") → d.sessionId = fresh) ∧
    (∀ s, sid = some s → s ≠ "" → d.sessionId = s) := by
  have hsid : d.sessionId = resolveSessionId sid fresh := by
    cases os? with
    | none => simp [notebookRun] at hok
    | some os =>
      cases hnb : findNotebook st nid with
      | none => simp [notebookRun, hnb] at hok
      | some nb =>
        cases ht : getTeamById "notebooklm" os.teams with
        | none => simp [notebookRun, hnb, ht] at hok
        | some team =>
          rw [run_success os st nid msg stream sid uid fresh now nb team hnb ht] at hok
          simp at hok
          rw [← hok]
  refine ⟨hsid, ?_, ?_, ?_⟩
  · rw [hsid]
    cases sid with
    | none => simpa [resolveSessionId, isNewSession] using hfresh
    | some s =>
      by_cases hs : s = "" <;>
        simp [resolveSessionId, isNewSession, hs, hfresh]
  · rintro (rfl | rfl) <;> simp [hsid, resolveSessionId, isNewSession]
  · rintro s rfl hs
    simp [hsid, resolveSessionId, isNewSession, hs]

/-- Witness for claim C3: with a non-empty fresh token and a supplied
session id "s", the dispatched session id is non-empty. -/
theorem run_session_id_resolution_witness :
    ("u" : String) ≠ "" ∧
    (notebookRun (some ⟨["notebooklm"]⟩) ⟨[⟨1, "T", none, none, 0, none⟩], [], 0⟩
        1 "m" true (some "s") none "u" 5).2
      = .ok ⟨"notebooklm", "[Notebook: T]\n\nm", "s", none, true⟩ ∧
    (⟨"notebooklm", "[Notebook: T]\n\nm", "s", none, true⟩ : Dispatch).sessionId ≠ "" :=
  ⟨by decide, rfl,
    (run_session_id_resolution (some ⟨["notebooklm"]⟩)
      ⟨[⟨1, "T", none, none, 0, none⟩], [], 0⟩ 1 "m" true (some "s") none "u" 5
      ⟨"notebooklm", "[Notebook: T]\n\nm", "s", none, true⟩
      (by decide) rfl).2.1⟩

/-- Claim C4: a run request whose resolved session id already has a link
row — whatever notebook that row points at — leaves the store completely
unchanged and still dispatches under the requested notebook's context. -/
theorem run_existing_link_untouched
    (os : AgentOS) (st : DbState) (nid : Nat) (msg : String) (stream : Bool)
    (sid uid : Option String) (fresh : String) (now : Nat)
    (nb : Notebook) (team : String) (row : NotebookSessionRow)
    (hnb : findNotebook st nid = some nb)
    (ht : getTeamById "notebooklm" os.teams = some team)
    (hlink : findLink st (resolveSessionId sid fresh) = some row) :
    notebookRun (some os) st nid msg stream sid uid fresh now =
      (st, .ok { team := team, message := fullMessage nb msg,
                 sessionId := resolveSessionId sid fresh, userId := uid,
                 stream := stream }) := by
  rw [run_success os st nid msg stream sid uid fresh now nb team hnb ht]
  simp [linkSession, hlink]

/-- Witness for claim C4: the supplied session id "s" is already linked to
notebook 2, the run is addressed to notebook 1, and the store comes back
unchanged while the dispatch uses notebook 1's context. -/
theorem run_existing_link_untouched_witness :
    findLink ⟨[⟨1, "T", none, none, 0, none⟩], [⟨0, 2, "s", 0⟩], 1⟩
        (resolveSessionId (some "s") "u") = some ⟨0, 2, "s", 0⟩ ∧
    (⟨0, 2, "s", 0⟩ : NotebookSessionRow).notebookId ≠ 1 ∧
    notebookRun (some ⟨["notebooklm"]⟩)
        ⟨[⟨1, "T", none, none, 0, none⟩], [⟨0, 2, "s", 0⟩], 1⟩ 1 "m" true
        (some "s") none "u" 5
      = (⟨[⟨1, "T", none, none, 0, none⟩], [⟨0, 2, "s", 0⟩], 1⟩,
         .ok ⟨"notebooklm", fullMessage ⟨1, "T", none, none, 0, none⟩ "m",
              "s", none, true⟩) :=
  ⟨rfl, by decide,
    run_existing_link_untouched ⟨["notebooklm"]⟩
      ⟨[⟨1, "T", none, none, 0, none⟩], [⟨0, 2, "s", 0⟩], 1⟩ 1 "m" true
      (some "s") none "u" 5 ⟨1, "T", none, none, 0, none⟩ "notebooklm"
      ⟨0, 2, "s", 0⟩ rfl rfl rfl⟩

/-- Claim C6: a run request addressed to a notebook id that does not exist
fails with the 404 "Notebook not found" error and causes no state change
and no dispatch. -/
theorem run_missing_notebook_404_no_effects
    (os : AgentOS) (st : DbState) (nid : Nat) (msg : String) (stream : Bool)
    (sid uid : Option String) (fresh : String) (now : Nat)
    (h : findNotebook st nid = none) :
    notebookRun (some os) st nid msg stream sid uid fresh now
      = (st, .error .notebookNotFound) := by
  simp [notebookRun, h]

/-- Witness for claim C6: on the empty store, running notebook 1 returns
the 404 error and the unchanged store. -/
theorem run_missing_notebook_404_no_effects_witness :
    findNotebook ⟨[], [], 0⟩ 1 = none ∧
      notebookRun (some ⟨["notebooklm"]⟩) ⟨[], [], 0⟩ 1 "m" true none none "u" 0
        = (⟨[], [], 0⟩, .error .notebookNotFound) :=
  ⟨rfl, run_missing_notebook_404_no_effects ⟨["notebooklm"]⟩ ⟨[], [], 0⟩ 1 "m"
    true none none "u" 0 rfl⟩

/-- Claim C7: while the orchestration-framework reference is still unset,
every run request fails with the 500 internal error, with the store (read or
written) untouched and nothing dispatched, whatever the request contents. -/
theorem run_uninitialized_500_no_effects (st : DbState) (nid : Nat)
    (msg : String) (stream : Bool) (sid uid : Option String)
    (fresh : String) (now : Nat) :
    notebookRun none st nid msg stream sid uid fresh now
      = (st, .error .agentOSNotInitialized) := rfl

/-- Claim C8: the list operation returns all notebooks (a permutation of
the table) ordered by `updated_at` descending then `created_at`
descending. -/
theorem list_notebooks_ordered (st : DbState) :
    List.Perm (listNotebooks st) st.notebooks ∧
      (listNotebooks st).Pairwise (fun a b => notebookLe a b = true) := by
  refine ⟨List.mergeSort_perm st.notebooks notebookLe, ?_⟩
  apply List.sorted_mergeSort
  · intro a b c hab hbc
    simp only [notebookLe, decide_eq_true_eq] at *
    exact le_trans hbc hab
  · intro a b
    simp only [notebookLe]
    rcases le_total (sortKey a) (sortKey b) with h | h <;> simp [h]

end NotebookLM
namespace NotebookLM

/-- Counterexample for claim C5 as stated: a PUT whose body contains only
a title is claimed to leave every other field unchanged, but the storage
layer refreshes `updated_at` on the mutation (none becomes some 5 here),
so a field outside the request body does change. -/
theorem update_frame_cex :
    updateNotebook ⟨[⟨1, "A", some "d", some "i", 0, none⟩], [], 0⟩ 1
        ⟨some (some "X"), none, none⟩ 5
      = .ok (⟨[⟨1, "X", some "d", some "i", 0, some 5⟩], [], 0⟩,
             ⟨1, "X", some "d", some "i", 0, some 5⟩) ∧
    (⟨1, "A", some "d", some "i", 0, none⟩ : Notebook).updatedAt
      ≠ (⟨1, "X", some "d", some "i", 0, some 5⟩ : Notebook).updatedAt := by
  refine ⟨rfl, by simp⟩

/-- Claim C5 (amended): `update_notebook` applies exactly the fields
explicitly present in the request body; the absent content fields, the id
and `created_at` keep their prior values — in particular a title-only PUT
leaves description and instructions unchanged — and the link table and the
other rows are untouched; `updated_at` alone is additionally refreshed by
the storage layer when the applied fields change the row. -/
theorem update_applies_only_present_fields
    (st : DbState) (nid : Nat) (p : NotebookUpdatePatch) (now : Nat)
    (st' : DbState) (nb' nb : Notebook)
    (hnb : findNotebook st nid = some nb)
    (hok : updateNotebook st nid p now = .ok (st', nb')) :
    (∀ t, p.title = some (some t) → nb'.title = t) ∧
    (p.title = none → nb'.title = nb.title) ∧
    (∀ v, p.description = some v → nb'.description = v) ∧
    (p.description = none → nb'.description = nb.description) ∧
    (∀ v, p.instructions = some v → nb'.instructions = v) ∧
    (p.instructions = none → nb'.instructions = nb.instructions) ∧
    nb'.id = nb.id ∧ nb'.createdAt = nb.createdAt ∧
    nb'.updatedAt = (if applyPatch nb p = nb then nb.updatedAt else some now) ∧
    st'.notebooks = st.notebooks.map (fun x => if x.id == nid then nb' else x) ∧
    st'.links = st.links := by
  obtain ⟨htit, hdesc, hins, hid, hcr, hup⟩ :=
    updateNotebook_fields st nid p now st' nb' nb hnb hok
  obtain ⟨_, _, hmap, hlinks, _⟩ :=
    updateNotebook_ok_shape st nid p now st' nb' nb hnb hok
  refine ⟨?_, ?_, ?_, ?_, ?_, ?_, hid, hcr, hup, hmap, hlinks⟩
  · intro t ht; rw [htit]; simp [applyPatch, ht]
  · intro ht; rw [htit]; simp [applyPatch, ht]
  · intro v hv; rw [hdesc, hv]; rfl
  · intro hv; rw [hdesc, hv]; rfl
  · intro v hv; rw [hins, hv]; rfl
  · intro hv; rw [hins, hv]; rfl

/-- Witness for claim C5 (amended): a title-only PUT on a notebook with a
description and instructions leaves both at their prior values. -/
theorem update_applies_only_present_fields_witness :
    findNotebook ⟨[⟨1, "A", some "d", some "i", 0, none⟩], [], 0⟩ 1
      = some ⟨1, "A", some "d", some "i", 0, none⟩ ∧
    updateNotebook ⟨[⟨1, "A", some "d", some "i", 0, none⟩], [], 0⟩ 1
        ⟨some (some "X"), none, none⟩ 5
      = .ok (⟨[⟨1, "X", some "d", some "i", 0, some 5⟩], [], 0⟩,
             ⟨1, "X", some "d", some "i", 0, some 5⟩) ∧
    (⟨1, "X", some "d", some "i", 0, some 5⟩ : Notebook).description
      = (⟨1, "A", some "d", some "i", 0, none⟩ : Notebook).description ∧
    (⟨1, "X", some "d", some "i", 0, some 5⟩ : Notebook).instructions
      = (⟨1, "A", some "d", some "i", 0, none⟩ : Notebook).instructions :=
  ⟨rfl, rfl,
   (update_applies_only_present_fields
      ⟨[⟨1, "A", some "d", some "i", 0, none⟩], [], 0⟩ 1
      ⟨some (some "X"), none, none⟩ 5
      ⟨[⟨1, "X", some "d", some "i", 0, some 5⟩], [], 0⟩
      ⟨1, "X", some "d", some "i", 0, some 5⟩
      ⟨1, "A", some "d", some "i", 0, none⟩ rfl rfl).2.2.2.1 rfl,
   (update_applies_only_present_fields
      ⟨[⟨1, "A", some "d", some "i", 0, none⟩], [], 0⟩ 1
      ⟨some (some "X"), none, none⟩ 5
      ⟨[⟨1, "X", some "d", some "i", 0, some 5⟩], [], 0⟩
      ⟨1, "X", some "d", some "i", 0, some 5⟩
      ⟨1, "A", some "d", some "i", 0, none⟩ rfl rfl).2.2.2.2.2.1 rfl⟩

/-- Claim C9: explicit presence, not non-nullness, decides application:
a body explicitly carrying null for a nullable field clears that field,
while a body omitting the field leaves it unchanged. -/
theorem update_explicit_null_clears
    (st : DbState) (nid : Nat) (p : NotebookUpdatePatch) (now : Nat)
    (st' : DbState) (nb' nb : Notebook)
    (hnb : findNotebook st nid = some nb)
    (hok : updateNotebook st nid p now = .ok (st', nb')) :
    (p.description = some none → nb'.description = none) ∧
    (p.description = none → nb'.description = nb.description) ∧
    (p.instructions = some none → nb'.instructions = none) ∧
    (p.instructions = none → nb'.instructions = nb.instructions) := by
  obtain ⟨_, hdesc, hins, _, _, _⟩ :=
    updateNotebook_fields st nid p now st' nb' nb hnb hok
  refine ⟨?_, ?_, ?_, ?_⟩ <;> intro h <;>
    simp [hdesc, hins, h]

/-- Witness for claim C9: a body carrying an explicit null description
clears the stored description while the omitted instructions field keeps
its prior value. -/
theorem update_explicit_null_clears_witness :
    findNotebook ⟨[⟨1, "A", some "d", some "i", 0, none⟩], [], 0⟩ 1
      = some ⟨1, "A", some "d", some "i", 0, none⟩ ∧
    updateNotebook ⟨[⟨1, "A", some "d", some "i", 0, none⟩], [], 0⟩ 1
        ⟨none, some none, none⟩ 5
      = .ok (⟨[⟨1, "A", none, some "i", 0, some 5⟩], [], 0⟩,
             ⟨1, "A", none, some "i", 0, some 5⟩) ∧
    (⟨1, "A", none, some "i", 0, some 5⟩ : Notebook).description = none ∧
    (⟨1, "A", none, some "i", 0, some 5⟩ : Notebook).instructions
      = (⟨1, "A", some "d", some "i", 0, none⟩ : Notebook).instructions :=
  ⟨rfl, rfl,
   (update_explicit_null_clears
      ⟨[⟨1, "A", some "d", some "i", 0, none⟩], [], 0⟩ 1
      ⟨none, some none, none⟩ 5
      ⟨[⟨1, "A", none, some "i", 0, some 5⟩], [], 0⟩
      ⟨1, "A", none, some "i", 0, some 5⟩
      ⟨1, "A", some "d", some "i", 0, none⟩ rfl rfl).1 rfl,
   (update_explicit_null_clears
      ⟨[⟨1, "A", some "d", some "i", 0, none⟩], [], 0⟩ 1
      ⟨none, some none, none⟩ 5
      ⟨[⟨1, "A", none, some "i", 0, some 5⟩], [], 0⟩
      ⟨1, "A", none, some "i", 0, some 5⟩
      ⟨1, "A", some "d", some "i", 0, none⟩ rfl rfl).2.2.2 rfl⟩

/-- Claim C10: the optional user id is forwarded unchanged to the external
dispatch (on the streaming and the buffered path alike) and is never
persisted: neither the resulting store nor anything else in the outcome
depends on it. -/
theorem run_user_id_forwarded_only
    (os? : Option AgentOS) (st : DbState) (nid : Nat) (msg : String)
    (stream : Bool) (sid u1 u2 : Option String) (fresh : String) (now : Nat) :
    (notebookRun os? st nid msg stream sid u1 fresh now).1
      = (notebookRun os? st nid msg stream sid u2 fresh now).1 ∧
    Except.map (fun d => { d with userId := none })
        (notebookRun os? st nid msg stream sid u1 fresh now).2
      = Except.map (fun d => { d with userId := none })
          (notebookRun os? st nid msg stream sid u2 fresh now).2 ∧
    (∀ d, (notebookRun os? st nid msg stream sid u1 fresh now).2 = .ok d →
      d.userId = u1 ∧ d.stream = stream) := by
  cases os? with
  | none => simp [notebookRun]
  | some os =>
    cases hnb : findNotebook st nid with
    | none => simp [notebookRun, hnb]
    | some nb =>
      cases ht : getTeamById "notebooklm" os.teams with
      | none => simp [notebookRun, hnb, ht]
      | some team =>
        rw [run_success os st nid msg stream sid u1 fresh now nb team hnb ht,
            run_success os st nid msg stream sid u2 fresh now nb team hnb ht]
        refine ⟨rfl, rfl, ?_⟩
        rintro d hd
        simp at hd
        rw [← hd]
        exact ⟨rfl, rfl⟩

/-- Witness for claim C10: on the buffered path, two runs differing only in
the user id produce identical stores. -/
theorem run_user_id_forwarded_only_witness :
    (notebookRun (some ⟨["notebooklm"]⟩) ⟨[⟨1, "T", none, none, 0, none⟩], [], 0⟩
        1 "m" false none (some "alice") "u" 5).1
      = (notebookRun (some ⟨["notebooklm"]⟩) ⟨[⟨1, "T", none, none, 0, none⟩], [], 0⟩
          1 "m" false none (some "bob") "u" 5).1 :=
  (run_user_id_forwarded_only (some ⟨["notebooklm"]⟩)
    ⟨[⟨1, "T", none, none, 0, none⟩], [], 0⟩ 1 "m" false none
    (some "alice") (some "bob") "u" 5).1

end NotebookLM
